import Mathlib

/-!
Verification development for the console log capture / storage / search engine
(`console_mcp`): a shallow embedding of `src/database.ts` (`LogDatabase`),
`src/logger.ts` (`ConsoleLogger`) and the `prune_old_logs` tool handler,
together with theorems settling the specification's claims.

Modelling conventions:
* ISO-8601 UTC timestamp strings compare lexicographically exactly as the
  instants they denote, so timestamps are modelled as `Nat` and the SQL
  comparisons `<`, `>`, `>=` become the corresponding `Nat` comparisons.
* SQLite tables are lists of rows; `AUTOINCREMENT` ids are `max id + 1`.
* The FTS5 virtual tables `log_search` / `session_search` are lists of the
  projected columns; the `MATCH` operator is an abstract boolean oracle
  parameter, since its tokenizer semantics are irrelevant to every claim.
* JavaScript `undefined`/`null` arguments become `Option` values; the
  falsy-coalescing expression `code || undefined` is modelled verbatim by
  `jsOrUndefined`.
-/

inductive Level where
  | info
  | warn
  | error
  | debug
deriving DecidableEq, Repr

inductive Source where
  | stdout
  | stderr
deriving DecidableEq, Repr

inductive Status where
  | running
  | completed
  | failed
deriving DecidableEq, Repr

/-- A row of the `processes` table. -/
structure ProcessRow where
  id : Nat
  name : String
  command : String
  start_time : Nat
  end_time : Option Nat
  status : Status
  exit_code : Option Int
  pid : Option Nat
deriving DecidableEq, Repr

/-- A row of the `log_entries` table. -/
structure LogEntryRow where
  id : Nat
  process_id : Nat
  timestamp : Nat
  level : Level
  message : String
  raw_output : String
  source : Source
deriving DecidableEq, Repr

/-- A row of the `session_summaries` table. -/
structure SessionSummaryRow where
  id : Nat
  title : String
  description : String
  tags : String
  timestamp : Nat
  project : String
  llm_model : Option String
  files_changed : String
deriving DecidableEq, Repr

/-- A row of the FTS5 `log_search` virtual table (the projected columns). -/
structure LogSearchRow where
  message : String
  raw_output : String
  process_name : String
deriving DecidableEq, Repr

/-- A row of the FTS5 `session_search` virtual table. -/
structure SessionSearchRow where
  title : String
  description : String
  tags : String
  project : String
deriving DecidableEq, Repr

/-- The observable content of the SQLite database owned by `LogDatabase`. -/
@[ext]
structure DBState where
  processes : List ProcessRow
  log_entries : List LogEntryRow
  session_summaries : List SessionSummaryRow
  log_search : List LogSearchRow
  session_search : List SessionSearchRow
deriving DecidableEq, Repr

/-- The empty, freshly created database. -/
def DBState.empty : DBState :=
  { processes := [], log_entries := [], session_summaries := [],
    log_search := [], session_search := [] }

/-! ### Generic helpers -/

/-- JavaScript `String.prototype.toLowerCase` (ASCII-faithful). -/
def lowerStr (s : String) : String :=
  String.mk (s.data.map Char.toLower)

/-- JavaScript `hay.includes(needle)`: substring containment. -/
def strContains (hay needle : String) : Bool :=
  hay.data.tails.any (fun t => needle.data.isPrefixOf t)

/-- `lastInsertRowid` for a table whose current ids are `ids`. -/
def nextId (ids : List Nat) : Nat :=
  ids.foldr max 0 + 1

/-- SQL `ORDER BY key DESC` (largest key first). -/
def sortByKeyDesc {α : Type} (key : α → Nat) (l : List α) : List α :=
  List.insertionSort (fun a b => key b ≤ key a) l

theorem sortByKeyDesc_sorted {α : Type} (key : α → Nat) (l : List α) :
    (sortByKeyDesc key l).Sorted (fun a b => key b ≤ key a) := by
  haveI : IsTotal α (fun a b => key b ≤ key a) :=
    ⟨fun a b => (Nat.le_total (key b) (key a)).elim Or.inl Or.inr⟩
  haveI : IsTrans α (fun a b => key b ≤ key a) :=
    ⟨fun _ _ _ hab hbc => le_trans hbc hab⟩
  exact List.sorted_insertionSort _ l

theorem sortByKeyDesc_perm {α : Type} (key : α → Nat) (l : List α) :
    (sortByKeyDesc key l).Perm l :=
  List.perm_insertionSort _ l

theorem sortByKeyDesc_mem {α : Type} (key : α → Nat) (l : List α) (a : α) :
    a ∈ sortByKeyDesc key l ↔ a ∈ l :=
  (sortByKeyDesc_perm key l).mem_iff

theorem sortByKeyDesc_length {α : Type} (key : α → Nat) (l : List α) :
    (sortByKeyDesc key l).length = l.length :=
  (sortByKeyDesc_perm key l).length_eq

theorem any_filter {α : Type} (p q : α → Bool) (l : List α) :
    (l.filter q).any p = l.any (fun a => q a && p a) := by
  induction l with
  | nil => rfl
  | cons a l ih =>
      by_cases h : q a = true
      · simp [List.filter_cons, h, ih]
      · simp only [Bool.not_eq_true] at h
        simp [List.filter_cons, h, ih]

theorem not_decide_lt (a b : Nat) : (!decide (a < b)) = decide (b ≤ a) := by
  rcases Nat.lt_or_ge a b with h | h
  · simp [h, Nat.not_le.mpr h]
  · simp [Nat.not_lt.mpr h, h]

/-! ### Classifier (`ConsoleLogger.detectLogLevel`, `src/logger.ts`) -/

/-- `detectLogLevel`, translated from `src/logger.ts` lines 45-64. -/
def detectLogLevel (message : String) (source : Source) : Level :=
  let lowerMessage := lowerStr message
  if source == Source.stderr
      || strContains lowerMessage "error"
      || strContains lowerMessage "fail" then
    Level.error
  else if strContains lowerMessage "warn" then
    Level.warn
  else if strContains lowerMessage "debug" then
    Level.debug
  else
    Level.info

/-- The classification rule exactly as the specification words it (§4.3):
first match wins, `stderr` checked first on its own. -/
def detectLogLevelSpecRule (message : String) (source : Source) : Level :=
  if source == Source.stderr then
    Level.error
  else if strContains (lowerStr message) "error"
      || strContains (lowerStr message) "fail" then
    Level.error
  else if strContains (lowerStr message) "warn" then
    Level.warn
  else if strContains (lowerStr message) "debug" then
    Level.debug
  else
    Level.info

example : detectLogLevel "build succeeded" Source.stdout = Level.info := by decide
example : detectLogLevel "connection failed" Source.stdout = Level.error := by decide
example : detectLogLevel "all good" Source.stderr = Level.error := by decide
example : detectLogLevel "WARNING: low disk" Source.stdout = Level.warn := by decide
example : detectLogLevel "debugging session" Source.stdout = Level.debug := by decide

/-! ### Entity store operations (`LogDatabase`, `src/database.ts`) -/

/-- `rebuildFTSIndex` (`src/database.ts` lines 175-193): append the join of
the primary tables into both FTS tables.  The try/catch around the SQL
swallows a failing rebuild, so the operation takes a flag `ok` telling
whether the inserts succeeded; on failure the state is left untouched and
execution continues. -/
def rebuildFTSIndex (ok : Bool) (s : DBState) : DBState :=
  if ok then
    { s with
      log_search := s.log_search ++
        s.log_entries.flatMap (fun e =>
          (s.processes.filter (fun p => p.id == e.process_id)).map (fun p =>
            { message := e.message, raw_output := e.raw_output,
              process_name := p.name })),
      session_search := s.session_search ++
        s.session_summaries.map (fun ss =>
          { title := ss.title, description := ss.description,
            tags := ss.tags, project := ss.project }) }
  else s

/-- `initializeSchema` (`src/database.ts` lines 53-100): the
`CREATE TABLE IF NOT EXISTS` statements leave the primary tables' content
untouched; `resetFTSTables` (lines 102-173) drops both FTS tables (and their
triggers), recreates them empty, recreates the triggers, and repopulates the
FTS tables from the primary tables via `rebuildFTSIndex`. -/
def initializeSchema (s : DBState) : DBState :=
  rebuildFTSIndex true { s with log_search := [], session_search := [] }

/-- `createProcess` (`src/database.ts` lines 214-227): inserts a row without
`end_time` / `exit_code` and returns `lastInsertRowid`. -/
def createProcess (s : DBState) (name command : String) (start_time : Nat)
    (status : Status) (pid : Option Nat) : Nat × DBState :=
  let newId := nextId (s.processes.map (fun p => p.id))
  (newId,
   { s with processes := s.processes ++
      [{ id := newId, name := name, command := command,
         start_time := start_time, end_time := none, status := status,
         exit_code := none, pid := pid }] })

/-- `updateProcessStatus` (`src/database.ts` lines 229-241): an unconditional
`UPDATE processes SET status, exit_code, end_time WHERE id = ?`; missing
optional arguments bind SQL NULL. -/
def updateProcessStatus (s : DBState) (processId : Nat) (status : Status)
    (exitCode : Option Int) (endTime : Option Nat) : DBState :=
  { s with processes := s.processes.map (fun p =>
      if p.id == processId then
        { p with status := status, exit_code := exitCode, end_time := endTime }
      else p) }

/-- `addLogEntry` (`src/database.ts` lines 259-273) together with the
`log_entries_ai` AFTER INSERT trigger (lines 132-138), which inserts the
projection joined with the owning process's name into `log_search`. -/
def addLogEntry (s : DBState) (process_id timestamp : Nat) (level : Level)
    (message raw_output : String) (source : Source) : Nat × DBState :=
  let newId := nextId (s.log_entries.map (fun e => e.id))
  (newId,
   { s with
     log_entries := s.log_entries ++
       [{ id := newId, process_id := process_id, timestamp := timestamp,
          level := level, message := message, raw_output := raw_output,
          source := source }],
     log_search := s.log_search ++
       (s.processes.filter (fun p => p.id == process_id)).map (fun p =>
         { message := message, raw_output := raw_output,
           process_name := p.name }) })

/-- The FTS query string built by `searchLogs` (`src/database.ts` lines
284-287): the optional process name is appended as a column filter. -/
def ftsQueryOf (query : String) (processName : Option String) : String :=
  match processName with
  | some pn => query ++ " AND process_name:" ++ pn
  | none => query

/-- `searchLogs` (`src/database.ts` lines 276-336): query the FTS table with
the abstract `MATCH` oracle `ftsMatch`; if nothing matches return `[]`;
otherwise select the log entries joined with their process whose
`(message, raw_output, name)` triple occurs among the FTS results, apply the
optional `level` and `since` filters, order by timestamp descending and
truncate to `limit`. -/
def searchLogsCandidates (ftsMatch : String → LogSearchRow → Bool) (s : DBState)
    (query : String) (processName : Option String)
    (level : Option Level) (since : Option Nat) :
    List (LogEntryRow × String) :=
  let ftsResults := s.log_search.filter (ftsMatch (ftsQueryOf query processName))
  let joined := s.log_entries.flatMap (fun e =>
    (s.processes.filter (fun p => p.id == e.process_id)).map
      (fun p => (e, p.name)))
  let m1 := joined.filter (fun ep =>
    ftsResults.any (fun r =>
      r.message == ep.1.message && r.raw_output == ep.1.raw_output
        && r.process_name == ep.2))
  let m2 := match level with
    | some l => m1.filter (fun ep => ep.1.level == l)
    | none => m1
  match since with
  | some t => m2.filter (fun ep => decide (t < ep.1.timestamp))
  | none => m2

def searchLogs (ftsMatch : String → LogSearchRow → Bool) (s : DBState)
    (query : String) (limit : Nat) (processName : Option String)
    (level : Option Level) (since : Option Nat) :
    List (LogEntryRow × String) :=
  if (s.log_search.filter (ftsMatch (ftsQueryOf query processName))).isEmpty then []
  else
    (sortByKeyDesc (fun ep => ep.1.timestamp)
      (searchLogsCandidates ftsMatch s query processName level since)).take limit

/-- The rows of the `log_entries JOIN processes` selection of
`getProcessLogs` after the name and optional level filters, before ordering
and truncation. -/
def processLogsMatching (s : DBState) (processName : String)
    (level : Option Level) : List LogEntryRow :=
  let joined := s.log_entries.flatMap (fun e =>
    (s.processes.filter (fun p => p.name == processName && p.id == e.process_id)).map
      (fun _ => e))
  match level with
  | some l => joined.filter (fun e => e.level == l)
  | none => joined

/-- `getProcessLogs` (`src/database.ts` lines 366-390): all log entries of
every process row carrying the given name, optionally level-filtered,
ordered by timestamp descending, capped at `limit`. -/
def getProcessLogs (s : DBState) (processName : String) (limit : Nat)
    (level : Option Level) : List LogEntryRow :=
  (sortByKeyDesc (fun e => e.timestamp) (processLogsMatching s processName level)).take limit

/-- Result record of `pruneOldLogs`. -/
structure PruneResult where
  state : DBState
  deletedLogs : Nat
  deletedProcesses : Nat
deriving DecidableEq, Repr

/-- `pruneOldLogs` (`src/database.ts` lines 524-581), the transaction body:
count the entries older than the cutoff, clear `log_search`, delete those
entries (there is no DELETE trigger on `log_entries`), rebuild the FTS index
(`rebuildOk` records whether the rebuild's SQL succeeded — a failure there is
caught inside `rebuildFTSIndex` and does not abort the transaction), find the
processes left without any log entry via the LEFT JOIN, delete them by id
(orphan-hood depends only on the id, so this is the filter below), and return
the two counts. -/
def pruneOldLogs (s : DBState) (cutoff : Nat) (rebuildOk : Bool) : PruneResult :=
  let logsToDeleteCount :=
    (s.log_entries.filter (fun e => decide (e.timestamp < cutoff))).length
  let s1 := { s with log_search := [] }
  let s2 := { s1 with
    log_entries := s1.log_entries.filter (fun e => !decide (e.timestamp < cutoff)) }
  let s3 := rebuildFTSIndex rebuildOk s2
  let orphaned := s3.processes.filter (fun p =>
    !s3.log_entries.any (fun e => e.process_id == p.id))
  let s4 := { s3 with processes := s3.processes.filter (fun p =>
    s3.log_entries.any (fun e => e.process_id == p.id)) }
  { state := s4, deletedLogs := logsToDeleteCount,
    deletedProcesses := orphaned.length }

/-- The `dry_run` branch of the `prune_old_logs` tool handler
(`src/index.ts` lines 588-634): two `SELECT COUNT` statements, no mutation.
The orphan count is `COUNT(DISTINCT p.id)` over the processes with no log
entry at or after the cutoff. -/
def pruneOldLogsDryRun (s : DBState) (cutoff : Nat) : DBState × Nat × Nat :=
  let logsToDeleteCount :=
    (s.log_entries.filter (fun e => decide (e.timestamp < cutoff))).length
  let processesToDeleteCount :=
    (((s.processes.filter (fun p =>
        !s.log_entries.any (fun e =>
          e.process_id == p.id && decide (cutoff ≤ e.timestamp)))).map
      (fun p => p.id)).dedup).length
  (s, logsToDeleteCount, processesToDeleteCount)

/-! ### Ingestion path (`ConsoleLogger`, `src/logger.ts`) -/

/-- The JavaScript expression `code || undefined` (`src/logger.ts` line 146):
`0` and `null` are falsy, so both collapse to `undefined` (SQL NULL). -/
def jsOrUndefined (code : Option Int) : Option Int :=
  match code with
  | some c => if c == 0 then none else some c
  | none => none

/-- The `exit` handler of `ConsoleLogger.start` (`src/logger.ts` lines
131-153): add the synthetic exit log entry (`info` for exit code 0, `error`
otherwise), then update the process row to `completed`/`failed` with
`end_time = now` and `exit_code = code || undefined`. -/
def loggerOnExit (s : DBState) (processId : Nat) (code : Option Int)
    (now : Nat) (exitMessage : String) : DBState :=
  let level := if code == some 0 then Level.info else Level.error
  let s1 := (addLogEntry s processId now level exitMessage exitMessage Source.stdout).2
  let status := if code == some 0 then Status.completed else Status.failed
  updateProcessStatus s1 processId status (jsOrUndefined code) (some now)

/-- The `error` (spawn failure) handler of `ConsoleLogger.start`
(`src/logger.ts` lines 156-178): log the error, then mark the process
`failed` with `exit_code = -1`. -/
def loggerOnSpawnError (s : DBState) (processId : Nat) (now : Nat)
    (errorMessage errorStack : String) : DBState :=
  let s1 := (addLogEntry s processId now Level.error errorMessage errorStack Source.stderr).2
  updateProcessStatus s1 processId Status.failed (some (-1)) (some now)

/-- The SIGINT/SIGTERM handlers of `ConsoleLogger.start` (`src/logger.ts`
lines 180-222): log the notice, then mark the process `failed` with
`exit_code = -1` (the child's own `exit` event may still fire afterwards). -/
def loggerOnSignal (s : DBState) (processId : Nat) (now : Nat)
    (signalMessage : String) : DBState :=
  let s1 := (addLogEntry s processId now Level.info signalMessage signalMessage Source.stdout).2
  updateProcessStatus s1 processId Status.failed (some (-1)) (some now)

/-- The field invariant claimed for `Process` rows (spec §3): `end_time` and
`exit_code` are both absent iff the status is `running`, and both present
when the status is terminal. -/
def processFieldInvariant (p : ProcessRow) : Prop :=
  ((p.end_time = none ∧ p.exit_code = none) ↔ p.status = Status.running) ∧
  (p.status = Status.completed ∨ p.status = Status.failed →
    p.end_time ≠ none ∧ p.exit_code ≠ none)

instance (p : ProcessRow) : Decidable (processFieldInvariant p) := by
  unfold processFieldInvariant
  infer_instance

/-! ### Shared helper lemmas -/

theorem rebuildFTSIndex_log_entries (ok : Bool) (s : DBState) :
    (rebuildFTSIndex ok s).log_entries = s.log_entries := by
  cases ok <;> rfl

theorem rebuildFTSIndex_processes (ok : Bool) (s : DBState) :
    (rebuildFTSIndex ok s).processes = s.processes := by
  cases ok <;> rfl

/-- Surviving-entry check on the pruned table equals the dry run's
`NOT EXISTS (... timestamp >= cutoff)` check on the original table. -/
theorem orphanPredicate_eq (s : DBState) (cutoff : Nat) (p : ProcessRow) :
    (!(s.log_entries.filter (fun e => !decide (e.timestamp < cutoff))).any
       (fun e => e.process_id == p.id)) =
    (!s.log_entries.any (fun e =>
       e.process_id == p.id && decide (cutoff ≤ e.timestamp))) := by
  have h : (fun e : LogEntryRow =>
        (!decide (e.timestamp < cutoff)) && (e.process_id == p.id)) =
      (fun e : LogEntryRow =>
        (e.process_id == p.id) && decide (cutoff ≤ e.timestamp)) := by
    funext e
    rw [not_decide_lt, Bool.and_comm]
  rw [any_filter, h]

theorem pruneOldLogs_state_log_entries (s : DBState) (cutoff : Nat) (ok : Bool) :
    (pruneOldLogs s cutoff ok).state.log_entries =
      s.log_entries.filter (fun e => !decide (e.timestamp < cutoff)) := by
  cases ok <;> rfl

theorem pruneOldLogs_state_processes (s : DBState) (cutoff : Nat) (ok : Bool) :
    (pruneOldLogs s cutoff ok).state.processes =
      s.processes.filter (fun p =>
        (s.log_entries.filter (fun e => !decide (e.timestamp < cutoff))).any
          (fun e => e.process_id == p.id)) := by
  cases ok <;> rfl

theorem pruneOldLogs_deletedProcesses_eq (s : DBState) (cutoff : Nat) (ok : Bool) :
    (pruneOldLogs s cutoff ok).deletedProcesses =
      (s.processes.filter (fun p =>
        !(s.log_entries.filter (fun e => !decide (e.timestamp < cutoff))).any
          (fun e => e.process_id == p.id))).length := by
  cases ok <;> rfl

/-! ### Claim C2 — the classifier -/

/-- C2: `detectLogLevel` is a pure deterministic function of
`(line, source)` implementing exactly the spec's first-match rule order:
`stderr` forces `error` regardless of content, otherwise the lowercased
line is tested for "error"/"fail", then "warn", then "debug", defaulting
to `info`; repeated calls agree. -/
theorem detectLogLevel_correct (message : String) (source : Source) :
    detectLogLevel message source = detectLogLevelSpecRule message source ∧
    (source = Source.stderr → detectLogLevel message source = Level.error) ∧
    detectLogLevel message source = detectLogLevel message source := by
  refine ⟨?_, ?_, rfl⟩
  · cases source <;> simp [detectLogLevel, detectLogLevelSpecRule]
  · intro h
    subst h
    simp [detectLogLevel]

/-- Concrete instance of `detectLogLevel_correct` at `("oops", stderr)`. -/
theorem detectLogLevel_correct_witness :
    detectLogLevel "oops" Source.stderr = detectLogLevelSpecRule "oops" Source.stderr ∧
    detectLogLevel "oops" Source.stderr = Level.error :=
  ⟨(detectLogLevel_correct "oops" Source.stderr).1,
   (detectLogLevel_correct "oops" Source.stderr).2.1 rfl⟩

/-! ### Claim C7 — schema initialization is idempotent -/

/-- C7: re-running `initializeSchema` never fails (it is a total function of
the store content), preserves every row of `processes`, `log_entries` and
`session_summaries`, and a second run is a no-op on the store's content. -/
theorem initializeSchema_idempotent (s : DBState) :
    (initializeSchema s).processes = s.processes ∧
    (initializeSchema s).log_entries = s.log_entries ∧
    (initializeSchema s).session_summaries = s.session_summaries ∧
    initializeSchema (initializeSchema s) = initializeSchema s := by
  refine ⟨rfl, rfl, rfl, ?_⟩
  rfl

/-! ### Claim C1 — the terminal-fields invariant is broken on exit code 0 -/

/-- The exact run of the ingestion path on a normal exit with code 0:
create the process row, log the synthetic start entry, then run the
`exit` handler with `code = 0`. -/
def exitCodeZeroScenario : DBState :=
  let r1 := createProcess DBState.empty "demo" "node app.js" 0 Status.running (some 42)
  let s1 := (addLogEntry r1.2 r1.1 0 Level.info
    "Process started: node app.js (PID: 42)"
    "Process started: node app.js (PID: 42)" Source.stdout).2
  loggerOnExit s1 r1.1 (some 0) 5 "Process exited with code 0"

/-- C1 fails on the code: after a normal exit with exit code 0 the process
row has terminal status `completed` and `end_time` set, but `exit_code` is
NULL, because `src/logger.ts` line 146 passes `code || undefined` and `0` is
falsy in JavaScript.  The claimed invariant is violated on this row. -/
theorem exitCodeZero_breaks_invariant :
    ∃ p ∈ exitCodeZeroScenario.processes,
      p.status = Status.completed ∧ p.end_time = some 5 ∧ p.exit_code = none ∧
      ¬ processFieldInvariant p := by
  decide

/-! ### Claim C8 — terminal status is not actually terminal -/

/-- A store holding a single already-terminated process row. -/
def terminatedStore : DBState :=
  { DBState.empty with processes :=
      [{ id := 1, name := "demo", command := "node app.js", start_time := 0,
         end_time := some 10, status := Status.completed, exit_code := some 0,
         pid := some 42 }] }

/-- C8 fails on the code: `updateProcessStatus` is an unconditional SQL
UPDATE with no guard on the current status, so a second terminal update
against a row whose `end_time` is already set does take effect and changes
`status`, `exit_code` and `end_time`. -/
theorem updateProcessStatus_overwrites_terminal_row :
    (updateProcessStatus terminatedStore 1 Status.failed (some (-1)) (some 20)).processes =
      [{ id := 1, name := "demo", command := "node app.js", start_time := 0,
         end_time := some 20, status := Status.failed, exit_code := some (-1),
         pid := some 42 }] ∧
    (updateProcessStatus terminatedStore 1 Status.failed (some (-1)) (some 20)).processes ≠
      terminatedStore.processes := by
  constructor
  · rfl
  · decide

/-! ### Claim C3 — pruneOldLogs postcondition -/

/-- C3: after `pruneOldLogs` completes, no surviving log entry is older than
the cutoff, every surviving process still owns at least one surviving log
entry, and the returned pair is (number of entries older than the cutoff,
number of processes left with no entry at or after the cutoff). -/
theorem pruneOldLogs_postcondition (s : DBState) (cutoff : Nat) (ok : Bool) :
    (∀ e ∈ (pruneOldLogs s cutoff ok).state.log_entries, cutoff ≤ e.timestamp) ∧
    (∀ p ∈ (pruneOldLogs s cutoff ok).state.processes,
      ∃ e ∈ (pruneOldLogs s cutoff ok).state.log_entries, e.process_id = p.id) ∧
    (pruneOldLogs s cutoff ok).deletedLogs =
      (s.log_entries.filter (fun e => decide (e.timestamp < cutoff))).length ∧
    (pruneOldLogs s cutoff ok).deletedProcesses =
      (s.processes.filter (fun p =>
        !s.log_entries.any (fun e =>
          e.process_id == p.id && decide (cutoff ≤ e.timestamp)))).length := by
  refine ⟨?_, ?_, ?_, ?_⟩
  · intro e he
    rw [pruneOldLogs_state_log_entries] at he
    have h2 := (List.mem_filter.mp he).2
    simp only [Bool.not_eq_true', decide_eq_false_iff_not, Nat.not_lt] at h2
    exact h2
  · intro p hp
    rw [pruneOldLogs_state_processes] at hp
    obtain ⟨_, hany⟩ := List.mem_filter.mp hp
    rw [List.any_eq_true] at hany
    obtain ⟨e, he, heq⟩ := hany
    refine ⟨e, ?_, ?_⟩
    · rw [pruneOldLogs_state_log_entries]
      exact he
    · simpa using heq
  · cases ok <;> rfl
  · rw [pruneOldLogs_deletedProcesses_eq]
    congr 1
    exact List.filter_congr (fun p _ => orphanPredicate_eq s cutoff p)

def pC3a : ProcessRow :=
  { id := 1, name := "alpha", command := "npm start", start_time := 0,
    end_time := none, status := Status.running, exit_code := none, pid := some 7 }

def pC3b : ProcessRow :=
  { id := 2, name := "beta", command := "npm test", start_time := 1,
    end_time := some 4, status := Status.completed, exit_code := some 0, pid := some 8 }

def eC3old : LogEntryRow :=
  { id := 1, process_id := 1, timestamp := 0, level := Level.info,
    message := "starting", raw_output := "starting", source := Source.stdout }

def eC3new : LogEntryRow :=
  { id := 2, process_id := 1, timestamp := 10, level := Level.info,
    message := "still running", raw_output := "still running", source := Source.stdout }

def eC3b : LogEntryRow :=
  { id := 3, process_id := 2, timestamp := 3, level := Level.error,
    message := "test failed", raw_output := "test failed", source := Source.stderr }

def sC3 : DBState :=
  { processes := [pC3a, pC3b], log_entries := [eC3old, eC3new, eC3b],
    session_summaries := [], log_search := [], session_search := [] }

/-- Concrete instance of `pruneOldLogs_postcondition` on a two-process store
pruned at cutoff 5: the surviving entry is recent, the surviving process
still owns an entry, and the two counts match the store. -/
theorem pruneOldLogs_postcondition_witness :
    5 ≤ eC3new.timestamp ∧
    (∃ e ∈ (pruneOldLogs sC3 5 true).state.log_entries, e.process_id = pC3a.id) ∧
    (pruneOldLogs sC3 5 true).deletedLogs =
      (sC3.log_entries.filter (fun e => decide (e.timestamp < 5))).length ∧
    (pruneOldLogs sC3 5 true).deletedProcesses =
      (sC3.processes.filter (fun p =>
        !sC3.log_entries.any (fun e =>
          e.process_id == p.id && decide (5 ≤ e.timestamp)))).length :=
  ⟨(pruneOldLogs_postcondition sC3 5 true).1 eC3new (by decide),
   (pruneOldLogs_postcondition sC3 5 true).2.1 pC3a (by decide),
   (pruneOldLogs_postcondition sC3 5 true).2.2.1,
   (pruneOldLogs_postcondition sC3 5 true).2.2.2⟩

/-! ### Claim C10 — orphan deletion ignores process status -/

/-- C10: a process all of whose log entries are older than the cutoff (in
particular one with no entries at all) is deleted by `pruneOldLogs`, with no
condition whatsoever on its status — `running` included. -/
theorem pruneOldLogs_deletes_orphan_regardless_of_status
    (s : DBState) (cutoff : Nat) (ok : Bool) (p : ProcessRow)
    (hall : ∀ e ∈ s.log_entries, e.process_id = p.id → e.timestamp < cutoff) :
    p ∉ (pruneOldLogs s cutoff ok).state.processes := by
  intro hp
  rw [pruneOldLogs_state_processes] at hp
  obtain ⟨_, hany⟩ := List.mem_filter.mp hp
  rw [List.any_eq_true] at hany
  obtain ⟨e, he, heq⟩ := hany
  obtain ⟨hmem, hkeep⟩ := List.mem_filter.mp he
  simp only [Bool.not_eq_true', decide_eq_false_iff_not, Nat.not_lt] at hkeep
  have hlt := hall e hmem (by simpa using heq)
  omega

def pC10 : ProcessRow :=
  { id := 1, name := "stale", command := "sleep 1000", start_time := 0,
    end_time := none, status := Status.running, exit_code := none, pid := some 9 }

def sC10 : DBState :=
  { processes := [pC10],
    log_entries :=
      [{ id := 1, process_id := 1, timestamp := 0, level := Level.info,
         message := "old line", raw_output := "old line", source := Source.stdout }],
    session_summaries := [], log_search := [], session_search := [] }

/-- Concrete instance: a process that is still `running` but whose only log
entry is older than the cutoff is removed by the prune. -/
theorem pruneOldLogs_deletes_orphan_witness :
    pC10.status = Status.running ∧
    pC10 ∉ (pruneOldLogs sC10 5 true).state.processes :=
  ⟨rfl,
   pruneOldLogs_deletes_orphan_regardless_of_status sC10 5 true pC10 (by decide)⟩

/-! ### Claim C5 — the dry run mutates nothing and predicts the real counts -/

/-- C5: the `dry_run` branch of `prune_old_logs` leaves the store exactly as
it was, and — provided process ids are unique, which the PRIMARY KEY
guarantees — the two counts it reports are exactly the counts the real
`pruneOldLogs` returns on the same store. -/
theorem pruneOldLogsDryRun_agrees_with_prune (s : DBState) (cutoff : Nat) :
    (pruneOldLogsDryRun s cutoff).1 = s ∧
    ((s.processes.map (fun p => p.id)).Nodup →
      (pruneOldLogsDryRun s cutoff).2.1 = (pruneOldLogs s cutoff true).deletedLogs ∧
      (pruneOldLogsDryRun s cutoff).2.2 = (pruneOldLogs s cutoff true).deletedProcesses) := by
  refine ⟨rfl, fun hnodup => ⟨rfl, ?_⟩⟩
  have hsub :
      ((s.processes.filter (fun p =>
          !s.log_entries.any (fun e =>
            e.process_id == p.id && decide (cutoff ≤ e.timestamp)))).map
        (fun p => p.id)).Sublist (s.processes.map (fun p => p.id)) :=
    (List.filter_sublist _).map _
  have hnd := hnodup.sublist hsub
  show ((s.processes.filter _).map (fun p => p.id)).dedup.length = _
  rw [List.Nodup.dedup hnd, List.length_map,
    pruneOldLogs_deletedProcesses_eq]
  congr 1
  exact (List.filter_congr (fun p _ => orphanPredicate_eq s cutoff p)).symm

def sC5 : DBState :=
  { processes := [pC3a, pC3b],
    log_entries := [eC3old, eC3new, eC3b],
    session_summaries := [],
    log_search :=
      [{ message := "starting", raw_output := "starting", process_name := "alpha" },
       { message := "still running", raw_output := "still running", process_name := "alpha" },
       { message := "test failed", raw_output := "test failed", process_name := "beta" }],
    session_search := [] }

/-- Concrete instance of `pruneOldLogsDryRun_agrees_with_prune` at cutoff 5
on a store with distinct process ids. -/
theorem pruneOldLogsDryRun_agrees_witness :
    (pruneOldLogsDryRun sC5 5).1 = sC5 ∧
    (pruneOldLogsDryRun sC5 5).2.1 = (pruneOldLogs sC5 5 true).deletedLogs ∧
    (pruneOldLogsDryRun sC5 5).2.2 = (pruneOldLogs sC5 5 true).deletedProcesses :=
  ⟨(pruneOldLogsDryRun_agrees_with_prune sC5 5).1,
   ((pruneOldLogsDryRun_agrees_with_prune sC5 5).2 (by decide)).1,
   ((pruneOldLogsDryRun_agrees_with_prune sC5 5).2 (by decide)).2⟩

/-! ### Claim C6 — searchLogs ordering, limit and empty-match behaviour -/

/-- C6: for every FTS match oracle, store, query, limit and optional
filters, `searchLogs` returns a list ordered by timestamp descending whose
length never exceeds `limit`; and when the query matches no row of the
search index it returns `[]` (a value, not a failure). -/
theorem searchLogs_ordered_limited (ftsMatch : String → LogSearchRow → Bool)
    (s : DBState) (query : String) (limit : Nat) (pn : Option String)
    (lv : Option Level) (since : Option Nat) :
    ((searchLogs ftsMatch s query limit pn lv since).Sorted
        (fun a b => b.1.timestamp ≤ a.1.timestamp) ∧
      (searchLogs ftsMatch s query limit pn lv since).length ≤ limit) ∧
    (s.log_search.filter (ftsMatch (ftsQueryOf query pn)) = [] →
      searchLogs ftsMatch s query limit pn lv since = []) := by
  refine ⟨⟨?_, ?_⟩, ?_⟩
  · unfold searchLogs
    split
    · exact List.sorted_nil
    · exact List.Pairwise.sublist (List.take_sublist _ _) (sortByKeyDesc_sorted _ _)
  · unfold searchLogs
    split
    · simp
    · exact List.length_take_le _ _
  · intro h
    unfold searchLogs
    rw [h]
    rfl

/-- The FTS5 `MATCH` oracle used by the concrete search instance: a row
matches when its message contains the query string. -/
def messageOracle (q : String) (r : LogSearchRow) : Bool :=
  strContains r.message q

/-- Concrete instance of `searchLogs_ordered_limited`: a real query against
the in-sync store is ordered and within the limit, and a query matching no
index row yields `[]`. -/
theorem searchLogs_ordered_limited_witness :
    ((searchLogs messageOracle sC5 "failed" 10 none none none).Sorted
        (fun a b => b.1.timestamp ≤ a.1.timestamp) ∧
      (searchLogs messageOracle sC5 "failed" 10 none none none).length ≤ 10) ∧
    searchLogs messageOracle sC5 "nomatch" 10 none none none = [] :=
  ⟨(searchLogs_ordered_limited messageOracle sC5 "failed" 10 none none none).1,
   (searchLogs_ordered_limited messageOracle sC5 "nomatch" 10 none none none).2
     (by decide)⟩

/-! ### Claim C9 — getProcessLogs merges every run sharing the name -/

/-- C9: `getProcessLogs` is ordered by timestamp descending, and it draws
its entries from every process row carrying the requested name: any entry
owned by any such row (passing the optional level filter) appears in the
result whenever the limit accommodates the matching entries — in particular
entries of older runs, not only of the latest. -/
theorem getProcessLogs_merges_all_runs (s : DBState) (name : String)
    (lv : Option Level) (limit : Nat) :
    (getProcessLogs s name limit lv).Sorted
      (fun a b => b.timestamp ≤ a.timestamp) ∧
    (∀ e p, p ∈ s.processes → p.name = name → e ∈ s.log_entries →
      e.process_id = p.id → (∀ l, lv = some l → e.level = l) →
      (processLogsMatching s name lv).length ≤ limit →
      e ∈ getProcessLogs s name limit lv) := by
  constructor
  · exact List.Pairwise.sublist (List.take_sublist _ _) (sortByKeyDesc_sorted _ _)
  · intro e p hp hname he hpid hlevel hlen
    have hjoined : e ∈ s.log_entries.flatMap (fun e =>
        (s.processes.filter
          (fun q => q.name == name && q.id == e.process_id)).map (fun _ => e)) := by
      rw [List.mem_flatMap]
      refine ⟨e, he, ?_⟩
      rw [List.mem_map]
      refine ⟨p, ?_, rfl⟩
      rw [List.mem_filter]
      refine ⟨hp, ?_⟩
      simp [hname, hpid.symm]
    have hmatch : e ∈ processLogsMatching s name lv := by
      unfold processLogsMatching
      cases lv with
      | none => exact hjoined
      | some l =>
          rw [List.mem_filter]
          exact ⟨hjoined, by simp [hlevel l rfl]⟩
    unfold getProcessLogs
    rw [List.take_of_length_le]
    · rw [sortByKeyDesc_mem]
      exact hmatch
    · rw [sortByKeyDesc_length]
      exact hlen

def pC9first : ProcessRow :=
  { id := 1, name := "build", command := "make", start_time := 0,
    end_time := some 2, status := Status.completed, exit_code := some 0, pid := some 11 }

def pC9second : ProcessRow :=
  { id := 2, name := "build", command := "make", start_time := 3,
    end_time := none, status := Status.running, exit_code := none, pid := some 12 }

def eC9old : LogEntryRow :=
  { id := 1, process_id := 1, timestamp := 1, level := Level.info,
    message := "first run line", raw_output := "first run line", source := Source.stdout }

def eC9new : LogEntryRow :=
  { id := 2, process_id := 2, timestamp := 5, level := Level.info,
    message := "second run line", raw_output := "second run line", source := Source.stdout }

def sC9 : DBState :=
  { processes := [pC9first, pC9second], log_entries := [eC9old, eC9new],
    session_summaries := [], log_search := [], session_search := [] }

/-- Concrete instance: with two process rows both named "build", an entry
belonging to the older run is returned by `getProcessLogs "build"`. -/
theorem getProcessLogs_merges_all_runs_witness :
    eC9old ∈ getProcessLogs sC9 "build" 10 none :=
  (getProcessLogs_merges_all_runs sC9 "build" none 10).2 eC9old pC9first
    (by decide) rfl (by decide) rfl (fun _ h => Option.noConfusion h) (by decide)

/-! ### Claim C4 — prune atomicity and the swallowed rebuild failure -/

def pC4 : ProcessRow :=
  { id := 1, name := "proc", command := "npm start", start_time := 0,
    end_time := none, status := Status.running, exit_code := none, pid := some 3 }

def eC4old : LogEntryRow :=
  { id := 1, process_id := 1, timestamp := 0, level := Level.info,
    message := "m0", raw_output := "r0", source := Source.stdout }

def eC4new : LogEntryRow :=
  { id := 2, process_id := 1, timestamp := 10, level := Level.info,
    message := "m1", raw_output := "r1", source := Source.stdout }

/-- A store with an in-sync search index, about to be pruned at cutoff 5. -/
def sC4 : DBState :=
  { processes := [pC4], log_entries := [eC4old, eC4new],
    session_summaries := [],
    log_search :=
      [{ message := "m0", raw_output := "r0", process_name := "proc" },
       { message := "m1", raw_output := "r1", process_name := "proc" }],
    session_search := [] }

/-- C4 fails on the code: when step 3 (the FTS rebuild) fails partway, the
try/catch inside `rebuildFTSIndex` swallows the error, so the transaction
still commits — the resulting store is NOT the pre-call state (the old log
entry is gone) and its search index has been cleared without being rebuilt,
leaving it out of sync with the surviving entries. -/
theorem pruneOldLogs_rebuild_failure_commits :
    (pruneOldLogs sC4 5 false).state ≠ sC4 ∧
    (pruneOldLogs sC4 5 false).state.log_search = [] ∧
    (pruneOldLogs sC4 5 false).state.log_entries = [eC4new] := by
  refine ⟨?_, rfl, rfl⟩
  decide

/-- C4 amended: the transaction is atomic for every step except the index
rebuild — an error raised inside `rebuildFTSIndex` is caught and logged, and
the transaction commits anyway: the primary-table deletions and the returned
counts are exactly those of a fully successful prune, while `log_search` is
left cleared and `session_search` untouched. -/
theorem pruneOldLogs_rebuild_failure_semantics (s : DBState) (cutoff : Nat) :
    (pruneOldLogs s cutoff false).state.processes =
      (pruneOldLogs s cutoff true).state.processes ∧
    (pruneOldLogs s cutoff false).state.log_entries =
      (pruneOldLogs s cutoff true).state.log_entries ∧
    (pruneOldLogs s cutoff false).state.session_summaries = s.session_summaries ∧
    (pruneOldLogs s cutoff false).state.log_search = [] ∧
    (pruneOldLogs s cutoff false).deletedLogs =
      (pruneOldLogs s cutoff true).deletedLogs ∧
    (pruneOldLogs s cutoff false).deletedProcesses =
      (pruneOldLogs s cutoff true).deletedProcesses := by
  refine ⟨?_, ?_, rfl, rfl, rfl, ?_⟩
  · rw [pruneOldLogs_state_processes, pruneOldLogs_state_processes]
  · rw [pruneOldLogs_state_log_entries, pruneOldLogs_state_log_entries]
  · rw [pruneOldLogs_deletedProcesses_eq, pruneOldLogs_deletedProcesses_eq]
